import Mathlib

/-!
Verification of `check-nextcloud-counters.go`, a Nagios-style monitoring
probe.  The Go program is embedded shallowly: every function of the source
(`checkArguments`, `fetchPerformanceInfo`, `nagiosResult`, `main`) becomes an
executable Lean definition; process exit through `nagiosResult` is modelled
with `Option`/`Except` early returns; the network is an oracle
`HttpRequest → HttpResponse` passed to the pipeline, and the list of issued
requests is returned so that "no network call" is observable.
-/

namespace CheckNextcloud

/-- The flag-derived configuration of one run (the package-level `flag`
variables of the Go source). Go `int64` thresholds are embedded as `Int`;
no arithmetic in the program can overflow them. -/
structure Config where
  hostname : String
  uri : String
  username : String
  password : String
  counter : String
  critical : Int
  warning : Int
  debug : Bool
  perfdata : Bool
deriving DecidableEq, Repr

/-- The default flag values declared at the top of the source file. -/
def defaultConfig : Config :=
  { hostname := ""
    uri := "/ocs/v2.php/apps/serverinfo/api/v1/info"
    username := ""
    password := ""
    counter := ""
    critical := 0
    warning := 0
    debug := false
    perfdata := false }

/-- One terminal result of `nagiosResult`: the single line written to
standard output and the process exit code. -/
structure NagiosOutput where
  line : String
  exitCode : Nat
deriving DecidableEq, Repr

/-- Embedding of `nagiosResult(ret, message)`: prints one severity-prefixed
line and exits.  The source's `Printf` format strings are reproduced
verbatim; note the WARNING case of the source writes `"WARNING: %s \n"`,
with a space between the message and the newline. -/
def nagiosResult (ret : Int) (message : String) : NagiosOutput :=
  if ret = 0 then ⟨"OK: " ++ message ++ "\n", 0⟩
  else if ret = 1 then ⟨"WARNING: " ++ message ++ " \n", 1⟩
  else if ret = 2 then ⟨"CRITICAL: " ++ message ++ "\n", 2⟩
  else ⟨"UNKNOWN: " ++ message ++ "\n", 3⟩

/-- The counters accepted by `checkArguments` (`allowedCounters` in the
source). -/
def allowedCounters : List String :=
  ["AppUdatesAvailable", "FreeSpace", "NumShares", "ActiveUsers5Min"]

/-- Embedding of `checkArguments(counter, warning, critical)`.  `some out`
means the function called `nagiosResult` (which exits the process); `none`
means validation passed and `main` continues. -/
def checkArguments (counter : String) (warning critical : Int) :
    Option NagiosOutput :=
  if warning ≥ critical then
    some (nagiosResult 3 "Warning must be smaller than Critical")
  else if counter ∈ allowedCounters then
    none
  else
    some (nagiosResult 3 "Unknown Counter")

/-- The subset of the decoded `NcPerfData` JSON structure that the
extraction `switch` of `fetchPerformanceInfo` reads.  Fields are `Int`
values; `freespace` is `int64` in the source, the others plain `int`. -/
structure NcPerfData where
  numUpdatesAvailable : Int
  freespace : Int
  numShares : Int
  last5minutes : Int
deriving DecidableEq, Repr

/-- A response body, abstracted to the four JSON fields the probe can read:
`some v` when the field is present in the document, `none` when it is
missing (or when decoding failed to populate it). -/
structure JsonBody where
  numUpdatesAvailable : Option Int
  freespace : Option Int
  numShares : Option Int
  last5minutes : Option Int
deriving DecidableEq, Repr

/-- Embedding of `json.Unmarshal` into `NcPerfData` as the source uses it:
the error is ignored, and every field that decoding did not populate keeps
Go's zero value. -/
def unmarshal (b : JsonBody) : NcPerfData :=
  { numUpdatesAvailable := b.numUpdatesAvailable.getD 0
    freespace := b.freespace.getD 0
    numShares := b.numShares.getD 0
    last5minutes := b.last5minutes.getD 0 }

/-- An outgoing HTTP request, as built by lines 109–115 of the source. -/
structure HttpRequest where
  method : String
  url : String
  basicAuthUser : String
  basicAuthPass : String
deriving DecidableEq, Repr

/-- An HTTP response from the oracle network: status code and decoded body. -/
structure HttpResponse where
  statusCode : Int
  body : JsonBody
deriving DecidableEq, Repr

/-- Modelled from the Go standard library: `http.StatusText` for the status
codes the library defines at or above 300 (the only codes the probe turns
into messages); any other code maps to the empty string as in Go. -/
def statusText (code : Int) : String :=
  if code = 300 then "Multiple Choices"
  else if code = 301 then "Moved Permanently"
  else if code = 302 then "Found"
  else if code = 303 then "See Other"
  else if code = 304 then "Not Modified"
  else if code = 305 then "Use Proxy"
  else if code = 307 then "Temporary Redirect"
  else if code = 308 then "Permanent Redirect"
  else if code = 400 then "Bad Request"
  else if code = 401 then "Unauthorized"
  else if code = 402 then "Payment Required"
  else if code = 403 then "Forbidden"
  else if code = 404 then "Not Found"
  else if code = 405 then "Method Not Allowed"
  else if code = 406 then "Not Acceptable"
  else if code = 407 then "Proxy Authentication Required"
  else if code = 408 then "Request Timeout"
  else if code = 409 then "Conflict"
  else if code = 410 then "Gone"
  else if code = 411 then "Length Required"
  else if code = 412 then "Precondition Failed"
  else if code = 413 then "Request Entity Too Large"
  else if code = 414 then "Request URI Too Long"
  else if code = 415 then "Unsupported Media Type"
  else if code = 416 then "Requested Range Not Satisfiable"
  else if code = 417 then "Expectation Failed"
  else if code = 418 then "I'm a teapot"
  else if code = 421 then "Misdirected Request"
  else if code = 422 then "Unprocessable Entity"
  else if code = 423 then "Locked"
  else if code = 424 then "Failed Dependency"
  else if code = 425 then "Too Early"
  else if code = 426 then "Upgrade Required"
  else if code = 428 then "Precondition Required"
  else if code = 429 then "Too Many Requests"
  else if code = 431 then "Request Header Fields Too Large"
  else if code = 451 then "Unavailable For Legal Reasons"
  else if code = 500 then "Internal Server Error"
  else if code = 501 then "Not Implemented"
  else if code = 502 then "Bad Gateway"
  else if code = 503 then "Service Unavailable"
  else if code = 504 then "Gateway Timeout"
  else if code = 505 then "HTTP Version Not Supported"
  else if code = 506 then "Variant Also Negotiates"
  else if code = 507 then "Insufficient Storage"
  else if code = 508 then "Loop Detected"
  else if code = 510 then "Not Extended"
  else if code = 511 then "Network Authentication Required"
  else ""

/-- The request construction of `fetchPerformanceInfo`:
`fmt.Sprintf("https://%s/%s?format=json", *hostname, *uri)` followed by
`http.NewRequest("GET", ...)` and `req.SetBasicAuth(*username, *password)`. -/
def buildRequest (cfg : Config) : HttpRequest :=
  { method := "GET"
    url := "https://" ++ cfg.hostname ++ "/" ++ cfg.uri ++ "?format=json"
    basicAuthUser := cfg.username
    basicAuthPass := cfg.password }

/-- Embedding of the tail of `fetchPerformanceInfo` once the response is in
hand: the `StatusCode > 299` check (which exits through `nagiosResult`,
modelled by `Except.error`), the tolerant unmarshal, and the counter
`switch` returning `-1` for unrecognised names. -/
def fetchPerformanceInfo (counter : String) (resp : HttpResponse) :
    Except NagiosOutput Int :=
  if resp.statusCode > 299 then
    .error (nagiosResult 3
      ("Http request returned " ++ toString resp.statusCode ++ " ("
        ++ statusText resp.statusCode ++ ")"))
  else
    let m := unmarshal resp.body
    if counter = "AppUdatesAvailable" then .ok m.numUpdatesAvailable
    else if counter = "FreeSpace" then .ok m.freespace
    else if counter = "NumShares" then .ok m.numShares
    else if counter = "ActiveUsers5Min" then .ok m.last5minutes
    else .ok (-1)

/-- The extraction `switch` of `fetchPerformanceInfo` in isolation (the code
run on the unmarshalled structure when the status check passed). -/
def extractCounter (counter : String) (m : NcPerfData) : Int :=
  if counter = "AppUdatesAvailable" then m.numUpdatesAvailable
  else if counter = "FreeSpace" then m.freespace
  else if counter = "NumShares" then m.numShares
  else if counter = "ActiveUsers5Min" then m.last5minutes
  else -1

/-- The message `main` builds:
`fmt.Sprintf("%s: %s", *counter, fmt.Sprintf("%d", perfInfo))`, with the
perfdata suffix appended when the flag is set.  `rt` is the formatted
wall-clock runtime string (`%s` of a `time.Duration`), an input of the
environment. -/
def resultMessage (cfg : Config) (perfInfo : Int) (rt : String) : String :=
  let result := cfg.counter ++ ": " ++ toString perfInfo
  if cfg.perfdata then
    result ++ " | " ++ cfg.counter ++ "=" ++ toString perfInfo
      ++ ",runtime=" ++ rt
  else result

/-- The evaluation chain at the end of `main`: four sequential `if`
statements, each calling the process-exiting `nagiosResult`, so the first
matching condition wins (`some`).  `none` is the fall-through where `main`
returns without printing (the process then exits 0 silently). -/
def evaluate (perfInfo warning critical : Int) (counter result : String) :
    Option NagiosOutput :=
  if perfInfo = -1 then
    some (nagiosResult 3 ("Unknown value for " ++ counter))
  else if perfInfo < warning then
    some (nagiosResult 0 result)
  else if perfInfo ≥ warning then
    some (nagiosResult 1 result)
  else if perfInfo ≥ critical then
    some (nagiosResult 2 result)
  else none

/-- Embedding of `main` after `flag.Parse()`: validate arguments, issue the
single request against the network oracle `net`, fetch/extract, evaluate.
Returns the terminal output (`none` only on the silent fall-through) paired
with the list of HTTP requests actually issued. -/
def runProbe (cfg : Config) (net : HttpRequest → HttpResponse) (rt : String) :
    Option NagiosOutput × List HttpRequest :=
  match checkArguments cfg.counter cfg.warning cfg.critical with
  | some out => (some out, [])
  | none =>
    let req := buildRequest cfg
    let resp := net req
    match fetchPerformanceInfo cfg.counter resp with
    | .error out => (some out, [req])
    | .ok perfInfo =>
      (evaluate perfInfo cfg.warning cfg.critical cfg.counter
        (resultMessage cfg perfInfo rt), [req])

/-- The statement-side selector naming, for each validated counter, the raw
JSON field the extraction `switch` reads (used to say "the requested field
is missing from the body"). -/
def requestedField (counter : String) (b : JsonBody) : Option Int :=
  if counter = "AppUdatesAvailable" then b.numUpdatesAvailable
  else if counter = "FreeSpace" then b.freespace
  else if counter = "NumShares" then b.numShares
  else if counter = "ActiveUsers5Min" then b.last5minutes
  else none

/-- An output is a well-formed Nagios line: one severity label, a colon and
a space, a message, a final newline, with the exit code matching the label. -/
def isNagiosLine (o : NagiosOutput) : Prop :=
  (∃ m, o.line = "OK: " ++ m ++ "\n" ∧ o.exitCode = 0) ∨
  (∃ m, o.line = "WARNING: " ++ m ++ "\n" ∧ o.exitCode = 1) ∨
  (∃ m, o.line = "CRITICAL: " ++ m ++ "\n" ∧ o.exitCode = 2) ∨
  (∃ m, o.line = "UNKNOWN: " ++ m ++ "\n" ∧ o.exitCode = 3)

lemma checkArguments_of_ge (co : String) (w c : Int) (h : w ≥ c) :
    checkArguments co w c =
      some (nagiosResult 3 "Warning must be smaller than Critical") := by
  simp [checkArguments, h]

lemma runProbe_of_checkFail (cfg : Config) (net : HttpRequest → HttpResponse)
    (rt : String) (out : NagiosOutput)
    (h : checkArguments cfg.counter cfg.warning cfg.critical = some out) :
    runProbe cfg net rt = (some out, []) := by
  simp [runProbe, h]

lemma runProbe_of_checkPass (cfg : Config) (net : HttpRequest → HttpResponse)
    (rt : String)
    (h : checkArguments cfg.counter cfg.warning cfg.critical = none) :
    runProbe cfg net rt =
      (match fetchPerformanceInfo cfg.counter (net (buildRequest cfg)) with
       | .error out => (some out, [buildRequest cfg])
       | .ok perfInfo =>
         (evaluate perfInfo cfg.warning cfg.critical cfg.counter
           (resultMessage cfg perfInfo rt), [buildRequest cfg])) := by
  simp [runProbe, h]

lemma checkArguments_pass (co : String) (w c : Int) (hwc : w < c)
    (hco : co ∈ allowedCounters) : checkArguments co w c = none := by
  simp [checkArguments, not_le.mpr hwc, hco]

/-- C2: for every pair of thresholds with warning ≥ critical the probe
produces the UNKNOWN line with exit code 3 and issues no HTTP request,
whatever the network oracle would have answered. -/
theorem c2_bad_thresholds_unknown_no_network (cfg : Config)
    (net : HttpRequest → HttpResponse) (rt : String)
    (h : cfg.warning ≥ cfg.critical) :
    runProbe cfg net rt =
      (some (nagiosResult 3 "Warning must be smaller than Critical"), []) ∧
    (nagiosResult 3 "Warning must be smaller than Critical").exitCode = 3 ∧
    (runProbe cfg net rt).2 = [] :=
  have h1 := runProbe_of_checkFail cfg net rt _
    (checkArguments_of_ge cfg.counter cfg.warning cfg.critical h)
  ⟨h1, rfl, by rw [h1]⟩

/-- Witness for `c2_bad_thresholds_unknown_no_network` at a concrete
configuration with warning = critical = 0 (the defaults). -/
theorem c2_witness :
    runProbe defaultConfig (fun _ => ⟨200, ⟨none, none, none, none⟩⟩) "1ms" =
      (some (nagiosResult 3 "Warning must be smaller than Critical"), []) ∧
    (nagiosResult 3 "Warning must be smaller than Critical").exitCode = 3 ∧
    (runProbe defaultConfig (fun _ => ⟨200, ⟨none, none, none, none⟩⟩) "1ms").2
      = [] :=
  c2_bad_thresholds_unknown_no_network defaultConfig
    (fun _ => ⟨200, ⟨none, none, none, none⟩⟩) "1ms" (by decide)

/-- C1: for a value `v` other than the sentinel `-1`, with
warning < critical and v ≥ warning, the evaluation chain reports WARNING
(exit code 1); the CRITICAL branch is never taken for any such `v`,
including every v ≥ critical, because the reporting call exits first. -/
theorem c1_warning_shadows_critical (v w c : Int) (m r : String)
    (hv : v ≠ -1) (hwc : w < c) (hw : v ≥ w) :
    evaluate v w c m r = some (nagiosResult 1 r) ∧
    (nagiosResult 1 r).exitCode = 1 ∧
    evaluate v w c m r ≠ some (nagiosResult 2 r) := by
  have h1 : ¬ v < w := not_lt.mpr hw
  have heq : evaluate v w c m r = some (nagiosResult 1 r) := by
    simp [evaluate, hv, h1, hw]
  refine ⟨heq, rfl, ?_⟩
  rw [heq]
  intro hcontra
  have := congrArg NagiosOutput.exitCode (Option.some.inj hcontra)
  simp [nagiosResult] at this

/-- Witness for `c1_warning_shadows_critical`: v = 50, warning = 10,
critical = 20 (a value above both thresholds still reports WARNING). -/
theorem c1_witness :
    evaluate 50 10 20 "FreeSpace" "FreeSpace: 50" =
      some (nagiosResult 1 "FreeSpace: 50") ∧
    (nagiosResult 1 "FreeSpace: 50").exitCode = 1 ∧
    evaluate 50 10 20 "FreeSpace" "FreeSpace: 50" ≠
      some (nagiosResult 2 "FreeSpace: 50") :=
  c1_warning_shadows_critical 50 10 20 "FreeSpace" "FreeSpace: 50"
    (by decide) (by decide) (by decide)

/-- C10: the default warning and critical flag values are both 0, which
violates warning < critical, so every invocation whose thresholds are not
strictly ordered — the defaults included — ends UNKNOWN with
"Warning must be smaller than Critical" and exit code 3 before any
network request, whatever the other flags are. -/
theorem c10_default_thresholds_rejected (cfg : Config)
    (net : HttpRequest → HttpResponse) (rt : String)
    (h : ¬ cfg.warning < cfg.critical) :
    defaultConfig.warning = 0 ∧ defaultConfig.critical = 0 ∧
    ¬ defaultConfig.warning < defaultConfig.critical ∧
    runProbe cfg net rt =
      (some (nagiosResult 3 "Warning must be smaller than Critical"), []) ∧
    (nagiosResult 3 "Warning must be smaller than Critical").exitCode = 3 :=
  ⟨rfl, rfl, by decide,
    runProbe_of_checkFail cfg net rt _
      (checkArguments_of_ge cfg.counter cfg.warning cfg.critical
        (not_lt.mp h)),
    rfl⟩

/-- Witness for `c10_default_thresholds_rejected`: the literal default
configuration (with every other flag left at its default). -/
theorem c10_witness :
    defaultConfig.warning = 0 ∧ defaultConfig.critical = 0 ∧
    ¬ defaultConfig.warning < defaultConfig.critical ∧
    runProbe defaultConfig (fun _ => ⟨200, ⟨some 7, none, none, none⟩⟩) "2ms" =
      (some (nagiosResult 3 "Warning must be smaller than Critical"), []) ∧
    (nagiosResult 3 "Warning must be smaller than Critical").exitCode = 3 :=
  c10_default_thresholds_rejected defaultConfig
    (fun _ => ⟨200, ⟨some 7, none, none, none⟩⟩) "2ms" (by decide)

/-- C3, counterexample: the spec's enumerated metric name "update-count"
is NOT accepted by `checkArguments` — even with ordered thresholds it
produces the UNKNOWN "Unknown Counter" result instead of passing, so the
claimed enumerated set {update-count, free-space, share-count,
active-users-5min} is not the set the code validates against. -/
theorem c3_counterexample :
    checkArguments "update-count" 0 1 =
      some (nagiosResult 3 "Unknown Counter") ∧
    checkArguments "update-count" 0 1 ≠ none ∧
    "update-count" ∉ allowedCounters := by decide

/-- C3, amended: the fixed enumerated set is
{AppUdatesAvailable, FreeSpace, NumShares, ActiveUsers5Min}.  Given
ordered thresholds, every name outside it makes the probe stop UNKNOWN
("Unknown Counter", exit code 3) with no HTTP request issued, and every
name inside it passes validation and the pipeline issues its one request. -/
theorem c3_amended_enumerated_set (cfg : Config)
    (net : HttpRequest → HttpResponse) (rt : String)
    (hwc : cfg.warning < cfg.critical) :
    (cfg.counter ∉ allowedCounters →
      runProbe cfg net rt = (some (nagiosResult 3 "Unknown Counter"), []) ∧
      (nagiosResult 3 "Unknown Counter").exitCode = 3) ∧
    (cfg.counter ∈ allowedCounters →
      checkArguments cfg.counter cfg.warning cfg.critical = none ∧
      (runProbe cfg net rt).2 = [buildRequest cfg]) := by
  constructor
  · intro hmem
    have h : checkArguments cfg.counter cfg.warning cfg.critical =
        some (nagiosResult 3 "Unknown Counter") := by
      simp [checkArguments, not_le.mpr hwc, hmem]
    exact ⟨runProbe_of_checkFail cfg net rt _ h, rfl⟩
  · intro hmem
    have h := checkArguments_pass cfg.counter cfg.warning cfg.critical hwc hmem
    refine ⟨h, ?_⟩
    rw [runProbe_of_checkPass cfg net rt h]
    cases fetchPerformanceInfo cfg.counter (net (buildRequest cfg)) <;> rfl

/-- A concrete configuration asking for the NumShares counter with
warning 1, critical 2 (witness input). -/
def sharesConfig : Config := { defaultConfig with
  counter := "NumShares"
  warning := 1
  critical := 2 }

/-- A network oracle answering every request with status 200 and a body
holding only `num_shares = 4` (witness input). -/
def sharesNet : HttpRequest → HttpResponse :=
  fun _ => ⟨200, ⟨none, none, some 4, none⟩⟩

/-- Witness for `c3_amended_enumerated_set` at counter "NumShares",
warning 1, critical 2. -/
theorem c3_witness :
    ((sharesConfig.counter ∉ allowedCounters →
      runProbe sharesConfig sharesNet "3ms" =
        (some (nagiosResult 3 "Unknown Counter"), []) ∧
      (nagiosResult 3 "Unknown Counter").exitCode = 3) ∧
    (sharesConfig.counter ∈ allowedCounters →
      checkArguments sharesConfig.counter sharesConfig.warning
        sharesConfig.critical = none ∧
      (runProbe sharesConfig sharesNet "3ms").2 = [buildRequest sharesConfig])) :=
  c3_amended_enumerated_set sharesConfig sharesNet "3ms" (by decide)

/-- C4: every response with status code ≥ 300 stops the fetch with an
UNKNOWN result (exit code 3) whose message embeds the numeric status code
and its reason phrase; in particular a 401 response's message embeds
"401" and "Unauthorized". -/
theorem c4_http_error_unknown (counter : String) (resp : HttpResponse)
    (h : 300 ≤ resp.statusCode) :
    fetchPerformanceInfo counter resp =
      .error (nagiosResult 3 ("Http request returned "
        ++ toString resp.statusCode ++ " (" ++ statusText resp.statusCode
        ++ ")")) ∧
    (nagiosResult 3 ("Http request returned " ++ toString resp.statusCode
      ++ " (" ++ statusText resp.statusCode ++ ")")).exitCode = 3 ∧
    (∃ p q, "Http request returned " ++ toString resp.statusCode ++ " ("
      ++ statusText resp.statusCode ++ ")" = p ++ toString resp.statusCode
      ++ q) ∧
    (∃ p q, "Http request returned " ++ toString resp.statusCode ++ " ("
      ++ statusText resp.statusCode ++ ")" = p ++ statusText resp.statusCode
      ++ q) ∧
    (resp.statusCode = 401 → toString resp.statusCode = "401" ∧
      statusText resp.statusCode = "Unauthorized") := by
  have h299 : resp.statusCode > 299 := by omega
  refine ⟨by simp [fetchPerformanceInfo, h299], rfl, ?_, ?_, ?_⟩
  · exact ⟨"Http request returned ",
      " (" ++ statusText resp.statusCode ++ ")", by
        simp [String.append_assoc]⟩
  · exact ⟨"Http request returned " ++ toString resp.statusCode ++ " (",
      ")", by simp [String.append_assoc]⟩
  · intro h401
    rw [h401]
    exact ⟨rfl, rfl⟩

/-- Witness for `c4_http_error_unknown`: a literal 401 response. -/
theorem c4_witness :
    fetchPerformanceInfo "FreeSpace" ⟨401, ⟨none, none, none, none⟩⟩ =
      .error (nagiosResult 3 ("Http request returned "
        ++ toString (401 : Int) ++ " (" ++ statusText 401 ++ ")")) ∧
    (nagiosResult 3 ("Http request returned " ++ toString (401 : Int)
      ++ " (" ++ statusText 401 ++ ")")).exitCode = 3 ∧
    (∃ p q, "Http request returned " ++ toString (401 : Int) ++ " ("
      ++ statusText 401 ++ ")" = p ++ toString (401 : Int) ++ q) ∧
    (∃ p q, "Http request returned " ++ toString (401 : Int) ++ " ("
      ++ statusText 401 ++ ")" = p ++ statusText 401 ++ q) ∧
    ((401 : Int) = 401 → toString (401 : Int) = "401" ∧
      statusText 401 = "Unauthorized") :=
  c4_http_error_unknown "FreeSpace" ⟨401, ⟨none, none, none, none⟩⟩
    (by decide)

/-- C5: when the response decodes without populating the requested field
(the field is absent from the body), extraction of a validated counter
yields 0 — not the sentinel −1 — and the pipeline evaluates 0 against the
thresholds exactly as it would any extracted value. -/
theorem c5_missing_field_defaults_zero (cfg : Config)
    (net : HttpRequest → HttpResponse) (rt : String)
    (hc : cfg.counter ∈ allowedCounters) (hwc : cfg.warning < cfg.critical)
    (hst : (net (buildRequest cfg)).statusCode ≤ 299)
    (hmiss : requestedField cfg.counter (net (buildRequest cfg)).body = none) :
    extractCounter cfg.counter (unmarshal (net (buildRequest cfg)).body) = 0 ∧
    extractCounter cfg.counter (unmarshal (net (buildRequest cfg)).body)
      ≠ -1 ∧
    (runProbe cfg net rt).1 =
      evaluate 0 cfg.warning cfg.critical cfg.counter
        (resultMessage cfg 0 rt) := by
  have hle : ¬ (net (buildRequest cfg)).statusCode > 299 := not_lt.mpr hst
  have hpass := checkArguments_pass cfg.counter cfg.warning cfg.critical hwc hc
  have hrun := runProbe_of_checkPass cfg net rt hpass
  have hfetch : fetchPerformanceInfo cfg.counter (net (buildRequest cfg))
      = .ok 0 := by
    simp [allowedCounters] at hc
    rcases hc with hcase | hcase | hcase | hcase <;>
      (rw [hcase] at hmiss ⊢;
       simp [requestedField] at hmiss;
       simp [fetchPerformanceInfo, hle, unmarshal, hmiss])
  have hext : extractCounter cfg.counter
      (unmarshal (net (buildRequest cfg)).body) = 0 := by
    simp [allowedCounters] at hc
    rcases hc with hcase | hcase | hcase | hcase <;>
      (rw [hcase] at hmiss ⊢;
       simp [requestedField] at hmiss;
       simp [extractCounter, unmarshal, hmiss])
  rw [hfetch] at hrun
  exact ⟨hext, by rw [hext]; decide, by rw [hrun]⟩

/-- A concrete configuration asking for the FreeSpace counter with
warning 10, critical 20 (witness input). -/
def freeSpaceConfig : Config := { defaultConfig with
  counter := "FreeSpace"
  warning := 10
  critical := 20 }

/-- A network oracle answering status 200 with a body in which the
`freespace` field is absent (witness input). -/
def emptyBodyNet : HttpRequest → HttpResponse :=
  fun _ => ⟨200, ⟨none, none, none, none⟩⟩

/-- Witness for `c5_missing_field_defaults_zero`: FreeSpace requested,
body carries no freespace field. -/
theorem c5_witness :
    extractCounter freeSpaceConfig.counter
      (unmarshal (emptyBodyNet (buildRequest freeSpaceConfig)).body) = 0 ∧
    extractCounter freeSpaceConfig.counter
      (unmarshal (emptyBodyNet (buildRequest freeSpaceConfig)).body) ≠ -1 ∧
    (runProbe freeSpaceConfig emptyBodyNet "5ms").1 =
      evaluate 0 freeSpaceConfig.warning freeSpaceConfig.critical
        freeSpaceConfig.counter (resultMessage freeSpaceConfig 0 "5ms") :=
  c5_missing_field_defaults_zero freeSpaceConfig emptyBodyNet "5ms"
    (by decide) (by decide) (by decide) (by decide)

/-- A concrete configuration naming host "example.com" and uri "/info"
(counterexample input for the URL shape). -/
def c6Config : Config := { defaultConfig with
  hostname := "example.com"
  uri := "/info" }

/-- C6, counterexample: the source formats the URL as
`https://%s/%s?format=json`, inserting a "/" between hostname and uri, so
for hostname "example.com" and uri "/info" the request URL is
"https://example.com//info?format=json" and NOT the direct concatenation
"https://example.com/info?format=json" that the claim states. -/
theorem c6_counterexample :
    (buildRequest c6Config).url = "https://example.com//info?format=json" ∧
    (buildRequest c6Config).url ≠ "https://example.com/info?format=json" := by
  exact ⟨rfl, by decide⟩

/-- C6, amended: whenever validation passes, the probe issues exactly one
request: GET `https://<hostname>/<uri>?format=json` — hostname and uri
joined by an inserted "/" — with HTTP Basic authentication carrying the
configured username and password. -/
theorem c6_amended_request_shape (cfg : Config)
    (net : HttpRequest → HttpResponse) (rt : String)
    (hok : checkArguments cfg.counter cfg.warning cfg.critical = none) :
    (runProbe cfg net rt).2 = [⟨"GET",
      "https://" ++ cfg.hostname ++ "/" ++ cfg.uri ++ "?format=json",
      cfg.username, cfg.password⟩] := by
  rw [runProbe_of_checkPass cfg net rt hok]
  cases fetchPerformanceInfo cfg.counter (net (buildRequest cfg)) <;> rfl

/-- Witness for `c6_amended_request_shape` at the NumShares configuration. -/
theorem c6_witness :
    (runProbe sharesConfig sharesNet "4ms").2 = [⟨"GET",
      "https://" ++ sharesConfig.hostname ++ "/" ++ sharesConfig.uri
        ++ "?format=json",
      sharesConfig.username, sharesConfig.password⟩] :=
  c6_amended_request_shape sharesConfig sharesNet "4ms" (by decide)

lemma isNagiosLine_nagiosResult (ret : Int) (m : String) :
    isNagiosLine (nagiosResult ret m) := by
  by_cases h0 : ret = 0
  · exact Or.inl ⟨m, by simp [nagiosResult, h0], by simp [nagiosResult, h0]⟩
  by_cases h1 : ret = 1
  · refine Or.inr (Or.inl ⟨m ++ " ", ?_, by simp [nagiosResult, h0, h1]⟩)
    have hsp : (" \n" : String) = " " ++ "\n" := rfl
    have hline : (nagiosResult ret m).line = "WARNING: " ++ m ++ " \n" := by
      simp [nagiosResult, h0, h1]
    calc (nagiosResult ret m).line
        = "WARNING: " ++ m ++ " \n" := hline
      _ = "WARNING: " ++ m ++ (" " ++ "\n") := by rw [hsp]
      _ = "WARNING: " ++ m ++ " " ++ "\n" := (String.append_assoc _ _ _).symm
      _ = "WARNING: " ++ (m ++ " ") ++ "\n" := by
            rw [String.append_assoc "WARNING: " m " "]
  by_cases h2 : ret = 2
  · exact Or.inr (Or.inr (Or.inl ⟨m, by simp [nagiosResult, h0, h1, h2],
      by simp [nagiosResult, h0, h1, h2]⟩))
  · exact Or.inr (Or.inr (Or.inr ⟨m, by simp [nagiosResult, h0, h1, h2],
      by simp [nagiosResult, h0, h1, h2]⟩))

lemma checkArguments_shape (co : String) (w c : Int) (out : NagiosOutput)
    (h : checkArguments co w c = some out) : ∃ m, out = nagiosResult 3 m := by
  unfold checkArguments at h
  by_cases h1 : w ≥ c
  · simp [h1] at h
    exact ⟨_, h.symm⟩
  by_cases h2 : co ∈ allowedCounters
  · simp [h1, h2] at h
  · simp [h1, h2] at h
    exact ⟨_, h.symm⟩

lemma fetch_error_shape (co : String) (resp : HttpResponse)
    (out : NagiosOutput)
    (h : fetchPerformanceInfo co resp = .error out) :
    ∃ m, out = nagiosResult 3 m := by
  unfold fetchPerformanceInfo at h
  by_cases hs : resp.statusCode > 299
  · simp [hs] at h
    exact ⟨_, h.symm⟩
  · simp [hs] at h
    by_cases c1 : co = "AppUdatesAvailable" <;>
      by_cases c2 : co = "FreeSpace" <;>
      by_cases c3 : co = "NumShares" <;>
      by_cases c4 : co = "ActiveUsers5Min" <;>
      simp_all

lemma evaluate_some (v w c : Int) (m r : String) :
    ∃ ret msg, evaluate v w c m r = some (nagiosResult ret msg) := by
  unfold evaluate
  by_cases h1 : v = -1
  · exact ⟨3, "Unknown value for " ++ m, by simp [h1]⟩
  by_cases h2 : v < w
  · exact ⟨0, r, by simp [h1, h2]⟩
  · have h3 : v ≥ w := not_lt.mp h2
    exact ⟨1, r, by simp [h1, h2, h3]⟩

/-- A terminal process outcome: the lines the run writes to standard
output and the process exit code.  `log.Fatal` writes its message to
standard error only and exits 1, so a fatal abort contributes no stdout
line. -/
structure ProcessOutcome where
  stdoutLines : List String
  exitCode : Nat
deriving DecidableEq, Repr

/-- The environment's answer to the single HTTP round-trip: a response,
or `fatal` when request construction (`http.NewRequest`), the transport
(`client.Do`) or the body read (`ioutil.ReadAll`) fails — the three
`log.Fatal(err)` sites of `fetchPerformanceInfo`. -/
inductive NetAnswer where
  | fatal : NetAnswer
  | response : HttpResponse → NetAnswer
deriving DecidableEq, Repr

/-- Embedding of `main` over the fallible environment: like `runProbe`,
but the `log.Fatal` abort paths of `fetchPerformanceInfo` are kept: a
`fatal` answer ends the process with exit code 1 and nothing on standard
output.  The first component records the stdout lines written and the
exit code; the second the requests issued. -/
def runProbeFallible (cfg : Config) (netF : HttpRequest → NetAnswer)
    (rt : String) : ProcessOutcome × List HttpRequest :=
  match checkArguments cfg.counter cfg.warning cfg.critical with
  | some out => (⟨[out.line], out.exitCode⟩, [])
  | none =>
    let req := buildRequest cfg
    match netF req with
    | .fatal => (⟨[], 1⟩, [req])
    | .response resp =>
      match fetchPerformanceInfo cfg.counter resp with
      | .error out => (⟨[out.line], out.exitCode⟩, [req])
      | .ok perfInfo =>
        match evaluate perfInfo cfg.warning cfg.critical cfg.counter
            (resultMessage cfg perfInfo rt) with
        | some out => (⟨[out.line], out.exitCode⟩, [req])
        | none => (⟨[], 0⟩, [req])

lemma runProbeFallible_agrees (cfg : Config)
    (net : HttpRequest → HttpResponse) (rt : String) :
    runProbeFallible cfg (fun r => NetAnswer.response (net r)) rt =
      ((match (runProbe cfg net rt).1 with
        | some out => ⟨[out.line], out.exitCode⟩
        | none => ⟨[], 0⟩),
       (runProbe cfg net rt).2) := by
  unfold runProbeFallible runProbe
  cases hchk : checkArguments cfg.counter cfg.warning cfg.critical with
  | some out => rfl
  | none =>
    cases hf : fetchPerformanceInfo cfg.counter (net (buildRequest cfg)) with
    | error out => simp [hf]
    | ok v =>
      cases hev : evaluate v cfg.warning cfg.critical cfg.counter
          (resultMessage cfg v rt) with
      | some out => simp [hf, hev]
      | none => simp [hf, hev]

/-- A network environment in which the round-trip aborts (the canonical
case: the host is unreachable, `client.Do` returns an error and
`log.Fatal` fires). -/
def unreachableNet : HttpRequest → NetAnswer := fun _ => NetAnswer.fatal

/-- C7, counterexample: with valid arguments, the debug flag unset and an
unreachable host, the program aborts through `log.Fatal`: it writes no
line at all to standard output (zero lines, not one) and exits with
code 1, so not every invocation writes one `<SEVERITY>: <message>` line
with the associated exit code. -/
theorem c7_counterexample :
    runProbeFallible sharesConfig unreachableNet "9ms" =
      (⟨[], 1⟩, [buildRequest sharesConfig]) ∧
    (runProbeFallible sharesConfig unreachableNet "9ms").1.stdoutLines.length
      ≠ 1 ∧
    sharesConfig.debug = false := by decide

/-- C7, amended: for every invocation with the debug flag unset whose
HTTP round-trip does not abort through `log.Fatal` (request construction,
transport and body read succeed — invocations rejected before I/O
included), the program writes exactly one line to standard output, of the
form `<SEVERITY>: <message>` with SEVERITY among OK, WARNING, CRITICAL,
UNKNOWN, and exits with the associated code 0, 1, 2 or 3; on a
`log.Fatal` abort it writes nothing to standard output and exits 1. -/
theorem c7_amended_single_line (cfg : Config)
    (netF : HttpRequest → NetAnswer) (rt : String)
    (hdbg : cfg.debug = false)
    (hnofatal : netF (buildRequest cfg) ≠ NetAnswer.fatal) :
    ∃ o, (runProbeFallible cfg netF rt).1 =
      ⟨[o.line], o.exitCode⟩ ∧ isNagiosLine o := by
  cases hchk : checkArguments cfg.counter cfg.warning cfg.critical with
  | some out =>
    obtain ⟨m, hm⟩ := checkArguments_shape _ _ _ _ hchk
    exact ⟨out, by simp [runProbeFallible, hchk],
      hm ▸ isNagiosLine_nagiosResult 3 m⟩
  | none =>
    cases hnet : netF (buildRequest cfg) with
    | fatal => exact absurd hnet hnofatal
    | response resp =>
      cases hf : fetchPerformanceInfo cfg.counter resp with
      | error out =>
        obtain ⟨m, hm⟩ := fetch_error_shape _ _ _ hf
        exact ⟨out, by simp [runProbeFallible, hchk, hnet, hf],
          hm ▸ isNagiosLine_nagiosResult 3 m⟩
      | ok v =>
        obtain ⟨ret, msg, hev⟩ := evaluate_some v cfg.warning cfg.critical
          cfg.counter (resultMessage cfg v rt)
        exact ⟨nagiosResult ret msg,
          by simp [runProbeFallible, hchk, hnet, hf, hev],
          isNagiosLine_nagiosResult ret msg⟩

/-- A reachable environment answering every request with status 200 and a
body holding only `num_shares = 4` (witness input). -/
def sharesNetF : HttpRequest → NetAnswer :=
  fun _ => NetAnswer.response ⟨200, ⟨none, none, some 4, none⟩⟩

/-- Witness for `c7_amended_single_line`: the NumShares configuration
against a reachable host answering 200. -/
theorem c7_witness :
    ∃ o, (runProbeFallible sharesConfig sharesNetF "6ms").1 =
      ⟨[o.line], o.exitCode⟩ ∧ isNagiosLine o :=
  c7_amended_single_line sharesConfig sharesNetF "6ms" (by decide) (by decide)

/-- The configuration of the C8 scenario as the claim words it: counter
"update-count", warning 10, critical 20. -/
def c8Config : Config := { defaultConfig with
  hostname := "cloud.example.org"
  username := "admin"
  password := "secret"
  counter := "update-count"
  warning := 10
  critical := 20 }

/-- A network oracle answering status 200 with a body whose
`num_updates_available` field is 5 (C8 scenario input). -/
def c8Net : HttpRequest → HttpResponse :=
  fun _ => ⟨200, ⟨some 5, none, none, none⟩⟩

/-- C8, counterexample: with the metric name "update-count" the program
never reaches the fetch — validation rejects the name, reporting UNKNOWN
"Unknown Counter" (exit code 3) with no request issued — so the claimed
OK result with message "update-count: 5" is not produced. -/
theorem c8_counterexample :
    runProbe c8Config c8Net "12ms" =
      (some (nagiosResult 3 "Unknown Counter"), []) ∧
    (nagiosResult 3 "Unknown Counter").exitCode = 3 ∧
    (runProbe c8Config c8Net "12ms").1 ≠
      some (nagiosResult 0 "update-count: 5") := by decide

/-- The C8 configuration with the counter name the code actually accepts
for the update count, "AppUdatesAvailable". -/
def c8ConfigAmended : Config := { c8Config with
  counter := "AppUdatesAvailable" }

/-- C8, amended: with counter "AppUdatesAvailable" (the code's name for
the update-count metric), warning 10, critical 20, and a response whose
`num_updates_available` is 5, the probe reports OK with message
"AppUdatesAvailable: 5" (the `<metric>: <value>` format) and exit code 0. -/
theorem c8_amended_ok_five :
    runProbe c8ConfigAmended c8Net "12ms" =
      (some (nagiosResult 0 "AppUdatesAvailable: 5"),
        [buildRequest c8ConfigAmended]) ∧
    (nagiosResult 0 "AppUdatesAvailable: 5").line
      = "OK: AppUdatesAvailable: 5\n" ∧
    (nagiosResult 0 "AppUdatesAvailable: 5").exitCode = 0 := by decide

/-- C9: the unknown sentinel is the concrete value −1, so a response whose
`freespace` field genuinely holds −1 is indistinguishable from extraction
failure: extraction returns −1 and the probe reports UNKNOWN
"Unknown value for FreeSpace" instead of comparing −1 to the thresholds. -/
theorem c9_sentinel_collision (cfg : Config)
    (net : HttpRequest → HttpResponse) (rt : String)
    (hc : cfg.counter = "FreeSpace") (hwc : cfg.warning < cfg.critical)
    (hst : (net (buildRequest cfg)).statusCode ≤ 299)
    (hfree : (net (buildRequest cfg)).body.freespace = some (-1)) :
    extractCounter cfg.counter (unmarshal (net (buildRequest cfg)).body)
      = -1 ∧
    (runProbe cfg net rt).1 =
      some (nagiosResult 3 ("Unknown value for " ++ cfg.counter)) ∧
    (nagiosResult 3 ("Unknown value for " ++ cfg.counter)).exitCode = 3 := by
  have hle : ¬ (net (buildRequest cfg)).statusCode > 299 := not_lt.mpr hst
  have hmem : cfg.counter ∈ allowedCounters := by rw [hc]; decide
  have hpass := checkArguments_pass cfg.counter cfg.warning cfg.critical
    hwc hmem
  have hfetch : fetchPerformanceInfo cfg.counter (net (buildRequest cfg))
      = .ok (-1) := by
    rw [hc]
    simp [fetchPerformanceInfo, hle, unmarshal, hfree]
  have hrun := runProbe_of_checkPass cfg net rt hpass
  rw [hfetch] at hrun
  refine ⟨?_, ?_, rfl⟩
  · rw [hc]
    simp [extractCounter, unmarshal, hfree]
  · rw [hrun]
    simp [evaluate]

/-- A network oracle answering status 200 with a body whose `freespace`
field is −1 (witness input). -/
def minusOneNet : HttpRequest → HttpResponse :=
  fun _ => ⟨200, ⟨none, some (-1), none, none⟩⟩

/-- Witness for `c9_sentinel_collision`: FreeSpace requested, freespace
field −1 in the body. -/
theorem c9_witness :
    extractCounter freeSpaceConfig.counter
      (unmarshal (minusOneNet (buildRequest freeSpaceConfig)).body) = -1 ∧
    (runProbe freeSpaceConfig minusOneNet "7ms").1 =
      some (nagiosResult 3
        ("Unknown value for " ++ freeSpaceConfig.counter)) ∧
    (nagiosResult 3
      ("Unknown value for " ++ freeSpaceConfig.counter)).exitCode = 3 :=
  c9_sentinel_collision freeSpaceConfig minusOneNet "7ms"
    (by decide) (by decide) (by decide) (by decide)

end CheckNextcloud
